import Mathlib

set_option maxHeartbeats 1000000

/-!
Verification development for the rss_r_deploy tool (src/main.rs and
src/config.rs): a shallow embedding of the configuration handling, the
remote-command execution engine, the file-transfer routine, and the two
deployment workflows, together with theorems about their behaviour.
-/

/-- Single-quote a string, as the Rust code does with `format!` patterns such
as `rm -rf '{}'`. -/
def shellQuote (s : String) : String := "\x27" ++ s ++ "\x27"

/-- Model of `Utf8PathBuf::push` for relative components (every component the
program pushes is a relative literal such as `static`, `rss_r`, `persistence`,
`app_config.ron`, or a file name): if the path is empty the component becomes
the path, otherwise a `/` separator is inserted unless one is already there. -/
def pathPush (p c : String) : String :=
  if p.data = [] then c
  else if p.data.getLast? = some (Char.ofNat 47) then p ++ c
  else p ++ "/" ++ c

/-- Split a character list on `/`, keeping empty components. -/
def splitComps : List Char → List (List Char)
  | [] => [[]]
  | c :: rest =>
      let r := splitComps rest
      if c = Char.ofNat 47 then [] :: r
      else
        match r with
        | [] => [[c]]
        | h :: t => (c :: h) :: t

/-- Model of `Utf8Path::file_name`: the last normal component of the path, or
`none` when the path has no normal components or ends in `..`. -/
def fileName (p : String) : Option String :=
  let comps := ((splitComps p.data).map String.mk).filter
    (fun s => decide (s ≠ "" ∧ s ≠ "."))
  match comps.getLast? with
  | none => none
  | some c => if c = ".." then none else some c

/-- `REMOTE_TEMP_DIR` constant from src/main.rs. -/
def REMOTE_TEMP_DIR : String := "/tmp"

/-- `CONFIG_FILE` constant from src/config.rs. -/
def CONFIG_FILE : String := "deploy_config.ron"

/-- Configuration record mirroring `Config` in src/config.rs; `Utf8PathBuf`
fields are modelled as strings. -/
structure Config where
  target_host : String
  target_ip : Nat
  username : String
  rss_r_zip : String
  rss_r_target_test_dir : String
  rss_r_test_config_file : String
  rss_r_production_directory : String
  rss_r_production_user : String
  deriving DecidableEq, Repr

/-- The `Default` impl for `Config` in src/config.rs. -/
def Config.defaultConfig : Config :=
  { target_host := ""
    target_ip := 22
    username := ""
    rss_r_zip := ""
    rss_r_target_test_dir := ""
    rss_r_test_config_file := ""
    rss_r_production_directory := ""
    rss_r_production_user := "" }

/-- `Config::host_and_port` from src/config.rs: `format!("{}:{}", host, ip)`. -/
def Config.host_and_port (c : Config) : String :=
  c.target_host ++ ":" ++ toString c.target_ip

/-- `Config::load` from src/config.rs, with the filesystem read modelled as an
optional file content and `ron::from_str(..).ok()` modelled as a parse
function returning an option. A file that reads but fails to parse yields
`none`, exactly like an absent file. -/
def Config.load (configFileContents : Option String)
    (ronFromStr : String → Option Config) : Option Config :=
  match configFileContents with
  | some contents => ronFromStr contents
  | none => none

/-- The command-line arguments (`Args` in src/main.rs). -/
structure Args where
  production : Bool
  deriving DecidableEq, Repr

/-- The remote shell commands the program issues, one constructor per
`execute_command` call site, carrying the configuration-derived pieces that
the Rust code splices into the `format!` string. `Cmd.render` reproduces the
exact command text. -/
inductive Cmd where
  | stopService
  | checkZipContains (zipPath entry : String)
  | rmStaticDir (dir : String)
  | unzipFlat (zipPath entry dest : String)
  | unzipFlatStatic (zipPath entry dest : String)
  | chown (user target : String)
  | chownR (user target : String)
  | startService
  | statusService
  | rmTestDir (dir : String)
  | unzipTest (zipPath dest : String)
  | mkdirP (dir : String)
  deriving DecidableEq, Repr

/-- The exact command strings built by `format!` in src/main.rs. -/
def Cmd.render : Cmd → String
  | Cmd.stopService => "sudo systemctl stop rss_r"
  | Cmd.checkZipContains zipPath entry =>
      "unzip -l " ++ shellQuote zipPath ++ " | grep -q " ++ shellQuote entry
  | Cmd.rmStaticDir dir => "sudo rm -r " ++ shellQuote dir
  | Cmd.unzipFlat zipPath entry dest =>
      "sudo unzip -j -o " ++ shellQuote zipPath ++ " " ++ shellQuote entry ++ " -d " ++ dest
  | Cmd.unzipFlatStatic zipPath entry dest =>
      "sudo unzip -j -o " ++ shellQuote zipPath ++ " " ++ shellQuote (entry ++ "*") ++ " -d " ++ dest
  | Cmd.chown user target =>
      "sudo chown " ++ shellQuote user ++ ":" ++ shellQuote user ++ " " ++ shellQuote target
  | Cmd.chownR user target =>
      "sudo chown -R " ++ shellQuote user ++ ":" ++ shellQuote user ++ " " ++ shellQuote target
  | Cmd.startService => "sudo systemctl start rss_r"
  | Cmd.statusService => "systemctl status rss_r"
  | Cmd.rmTestDir dir => "rm -rf " ++ shellQuote dir
  | Cmd.unzipTest zipPath dest => "unzip " ++ shellQuote zipPath ++ " -d " ++ shellQuote dest
  | Cmd.mkdirP dir => "mkdir -p " ++ shellQuote dir

/-- Observable remote operations issued over the session: connection
establishment, the SSH handshake, agent authentication, a remote shell
command, or a file upload. -/
inductive RemoteOp where
  | connect (hostPort : String)
  | handshake
  | authAgent (username : String)
  | exec (cmd : Cmd)
  | upload (localPath remotePath : String)
  deriving DecidableEq, Repr

/-- The errors the program can abort with. -/
inductive DeployError where
  | connectionError (target : String)
  | handshakeError
  | authError
  | fileNameError
  | commandError (command : String) (exitCode : Nat)
  | transferError (localPath remotePath : String)
  | openError (path : String)
  deriving DecidableEq, Repr

/-- The remote environment: whether connection, handshake and authentication
succeed, the exit code each remote command produces, and whether each upload
succeeds. -/
structure Oracle where
  connectOk : Bool
  handshakeOk : Bool
  authOk : Bool
  execExit : Cmd → Nat
  uploadOk : String → String → Bool

/-- A workflow computation: the list of remote operations issued so far and
either a value or the first error, mirroring Rust `?` propagation. -/
def DeployM (α : Type) : Type := List RemoteOp × Except DeployError α

namespace DeployM

def pureD {α : Type} (a : α) : DeployM α := ([], Except.ok a)

def bindD {α β : Type} (x : DeployM α) (f : α → DeployM β) : DeployM β :=
  match x with
  | (t, Except.ok a) => (t ++ (f a).1, (f a).2)
  | (t, Except.error e) => (t, Except.error e)

instance : Monad DeployM where
  pure := pureD
  bind := bindD

end DeployM

/-- One `execute_command` call as seen by a workflow: the command is issued,
and a nonzero exit code from the oracle turns into an error carrying the
rendered command text and the exit code (the `eyre!` message in
src/main.rs). -/
def execCmd (o : Oracle) (c : Cmd) : DeployM Unit :=
  ([RemoteOp.exec c],
   if o.execExit c = 0 then Except.ok ()
   else Except.error (DeployError.commandError c.render (o.execExit c)))

/-- One `upload_file` call as seen by a workflow. -/
def uploadFileW (o : Oracle) (localPath remotePath : String) : DeployM Unit :=
  ([RemoteOp.upload localPath remotePath],
   if o.uploadOk localPath remotePath then Except.ok ()
   else Except.error (DeployError.transferError localPath remotePath))

/-- `TcpStream::connect` inside `connect_and_login`. -/
def tcpConnect (o : Oracle) (target : String) : DeployM Unit :=
  ([RemoteOp.connect target],
   if o.connectOk then Except.ok ()
   else Except.error (DeployError.connectionError target))

/-- `session.handshake()` inside `connect_and_login`. -/
def doHandshake (o : Oracle) : DeployM Unit :=
  ([RemoteOp.handshake],
   if o.handshakeOk then Except.ok ()
   else Except.error DeployError.handshakeError)

/-- `session.userauth_agent(&config.username)` inside `connect_and_login`. -/
def userauthAgent (o : Oracle) (username : String) : DeployM Unit :=
  ([RemoteOp.authAgent username],
   if o.authOk then Except.ok ()
   else Except.error DeployError.authError)

/-- `connect_and_login` from src/main.rs: TCP connect to `host:port`, SSH
handshake, then agent authentication with the configured username. -/
def connect_and_login (o : Oracle) (config : Config) : DeployM Unit := do
  tcpConnect o config.host_and_port
  doHandshake o
  userauthAgent o config.username

/-- `upload_zip_to_tmp_dir` from src/main.rs: take the artifact's own file
name (failing like `ok_or_eyre` when the path has none), and upload the zip
to `REMOTE_TEMP_DIR` under that name, returning the remote path. -/
def upload_zip_to_tmp_dir (o : Oracle) (config : Config) : DeployM String :=
  match fileName config.rss_r_zip with
  | none => ([], Except.error DeployError.fileNameError)
  | some package_name =>
      let remote_temp_path := pathPush REMOTE_TEMP_DIR package_name
      do
        uploadFileW o config.rss_r_zip remote_temp_path
        pure remote_temp_path

/-- `deploy_production` from src/main.rs: connect and log in, stop the
service, upload the zip, check the zip lists the executable and the static
directory, remove the old static directory, extract the executable and the
static tree, set ownership on both, start the service and query its status.
Every step is gated on the previous one succeeding. -/
def deploy_production (o : Oracle) (config : Config) : DeployM Unit := do
  connect_and_login o config
  execCmd o Cmd.stopService
  let remote_zip_path ← upload_zip_to_tmp_dir o config
  let rss_r_exec_in_zip := "rss_r/rss_r"
  let static_dir_in_zip := "rss_r/static/"
  execCmd o (Cmd.checkZipContains remote_zip_path rss_r_exec_in_zip)
  execCmd o (Cmd.checkZipContains remote_zip_path static_dir_in_zip)
  let target_static_dir := pathPush config.rss_r_production_directory "static"
  execCmd o (Cmd.rmStaticDir target_static_dir)
  execCmd o (Cmd.unzipFlat remote_zip_path rss_r_exec_in_zip
    config.rss_r_production_directory)
  execCmd o (Cmd.unzipFlatStatic remote_zip_path static_dir_in_zip
    target_static_dir)
  let target_rss_exe := pathPush config.rss_r_production_directory "rss_r"
  execCmd o (Cmd.chown config.rss_r_production_user target_rss_exe)
  execCmd o (Cmd.chownR config.rss_r_production_user target_static_dir)
  execCmd o Cmd.startService
  execCmd o Cmd.statusService

/-- `deploy_to_test_dir` from src/main.rs: connect and log in, upload the
zip, wipe the test directory, unzip into it, create the persistence
subdirectory, and upload the test settings file as `app_config.ron`. -/
def deploy_to_test_dir (o : Oracle) (config : Config) : DeployM Unit := do
  connect_and_login o config
  let remote_zip_path ← upload_zip_to_tmp_dir o config
  execCmd o (Cmd.rmTestDir config.rss_r_target_test_dir)
  execCmd o (Cmd.unzipTest remote_zip_path config.rss_r_target_test_dir)
  let config_file_target :=
    pathPush (pathPush config.rss_r_target_test_dir "rss_r") "persistence"
  execCmd o (Cmd.mkdirP config_file_target)
  let config_file_target2 := pathPush config_file_target "app_config.ron"
  uploadFileW o config.rss_r_test_config_file config_file_target2

/-- `verify_config` from src/main.rs: the early-return validation chain. -/
def verify_config (fileExists : String → Bool) (config : Config) : Bool :=
  if config.target_host.isEmpty then false
  else if config.username.isEmpty then false
  else if !fileExists config.rss_r_zip then false
  else if config.rss_r_target_test_dir.isEmpty then false
  else if !fileExists config.rss_r_test_config_file then false
  else if config.rss_r_production_directory.isEmpty then false
  else if config.rss_r_production_user.isEmpty then false
  else true

/-- Whether a finished run exits with status zero (`Ok(())` from `main`). -/
def exitIsZero : Except DeployError Unit → Bool
  | Except.ok _ => true
  | Except.error _ => false

/-- The observable outcome of one program run: what configuration was written
back to `deploy_config.ron`, which remote operations were issued, and whether
the process exits with status zero. -/
structure MainResult where
  savedConfig : Option Config
  remoteOps : List RemoteOp
  exitZero : Bool
  deriving DecidableEq, Repr

/-- `main` from src/main.rs after argument parsing: load the configuration
(re-saving it on success, saving a default and exiting nonzero when absent or
unparsable), validate it (exiting nonzero before any connection on failure),
then run the workflow selected by `--production`. -/
def mainRun (args : Args) (configFileContents : Option String)
    (ronFromStr : String → Option Config) (fileExists : String → Bool)
    (o : Oracle) : MainResult :=
  match Config.load configFileContents ronFromStr with
  | some config =>
      if verify_config fileExists config then
        let r :=
          if args.production then deploy_production o config
          else deploy_to_test_dir o config
        { savedConfig := some config, remoteOps := r.1, exitZero := exitIsZero r.2 }
      else
        { savedConfig := some config, remoteOps := [], exitZero := false }
  | none =>
      { savedConfig := some Config.defaultConfig, remoteOps := [], exitZero := false }

/-! ### Fine-grained model of `execute_command` (src/main.rs lines 275-318) -/

/-- The error `eyre!("command `{}` failed with exit code `{}`", ...)` built
by `execute_command`. -/
structure CommandError where
  command : String
  exitCode : Nat
  deriving DecidableEq, Repr

/-- Observable actions on the command channel: a chunk read from the merged
stdout/stderr stream (and immediately written to the local terminal), the
end-of-input signal, the channel close, and the final wait for close. -/
inductive ChanAct where
  | read (chunk : String)
  | sendEof
  | close
  | waitClose
  deriving DecidableEq, Repr

/-- The remote side of one command execution: the chunks successive
`channel.read` calls return before end-of-file, and the exit status the
channel reports after closing. -/
structure Channel where
  chunks : List String
  exitCode : Nat
  deriving DecidableEq, Repr

/-- The `while !channel.eof()` loop of `execute_command`: read a chunk, write
it to the local stdout, then check `signals.pending()`; on a pending
interrupt, send end-of-input, close the channel and break out of the loop.
`pending k` tells whether an interrupt signal is pending at the check that
follows the `k`-th read. -/
def executeLoop (pending : Nat → Bool) : List String → Nat → List ChanAct
  | [], _ => []
  | c :: rest, k =>
      ChanAct.read c ::
        (if pending k then [ChanAct.sendEof, ChanAct.close]
         else executeLoop pending rest (k + 1))

/-- `execute_command` from src/main.rs: run the read loop, then
`wait_close`, read the exit status, and succeed exactly when it is zero,
otherwise fail with an error carrying the command text and the exit code. -/
def execute_command (pending : Nat → Bool) (command : String) (ch : Channel) :
    List ChanAct × Except CommandError Unit :=
  (executeLoop pending ch.chunks 0 ++ [ChanAct.waitClose],
   if ch.exitCode = 0 then Except.ok ()
   else Except.error { command := command, exitCode := ch.exitCode })

/-- The chunks a run of `execute_command` wrote to the local terminal. -/
def writtenChunks (acts : List ChanAct) : List String :=
  acts.filterMap fun a =>
    match a with
    | ChanAct.read c => some c
    | _ => none

/-! ### Fine-grained model of `upload_file` (src/main.rs lines 320-337) -/

/-- Observable steps of one file transfer: opening the scp channel with mode
and declared length, writing the bytes, and the four-step close handshake. -/
inductive TransferStep where
  | scpSend (remotePath : String) (mode : Nat) (len : Nat)
  | writeAll (bytes : List Nat)
  | sendEof
  | waitEof
  | close
  | waitClose
  deriving DecidableEq, Repr

/-- Whether each I/O step of the transfer succeeds. -/
structure TransferOracle where
  scpSendOk : Bool
  writeOk : Bool
  sendEofOk : Bool
  waitEofOk : Bool
  closeOk : Bool
  waitCloseOk : Bool
  deriving DecidableEq, Repr

/-- `upload_file` from src/main.rs: open the local file (failing before any
transfer-channel activity when it cannot be opened), read it whole into
memory, open the remote scp channel with mode `0o644` and the byte count,
write all bytes, then send end-of-input, wait for its acknowledgment, close,
and wait for the close acknowledgment; each step aborts the rest on error. -/
def upload_file (fileContents : String → Option (List Nat))
    (tor : TransferOracle) (file remote_path : String) :
    List TransferStep × Except DeployError Unit :=
  match fileContents file with
  | none => ([], Except.error (DeployError.openError file))
  | some bytes =>
      let err := Except.error (DeployError.transferError file remote_path)
      let tSend := [TransferStep.scpSend remote_path 0o644 bytes.length]
      if tor.scpSendOk then
        let tWrite := tSend ++ [TransferStep.writeAll bytes]
        if tor.writeOk then
          let tEof := tWrite ++ [TransferStep.sendEof]
          if tor.sendEofOk then
            let tWaitEof := tEof ++ [TransferStep.waitEof]
            if tor.waitEofOk then
              let tClose := tWaitEof ++ [TransferStep.close]
              if tor.closeOk then
                let tWaitClose := tClose ++ [TransferStep.waitClose]
                if tor.waitCloseOk then (tWaitClose, Except.ok ())
                else (tWaitClose, err)
              else (tClose, err)
            else (tWaitEof, err)
          else (tEof, err)
        else (tWrite, err)
      else (tSend, err)

/-! ### Concrete fixtures used by witnesses and counterexamples -/

/-- A fully populated sample configuration. -/
def configW : Config :=
  { target_host := "example.com"
    target_ip := 22
    username := "deploy"
    rss_r_zip := "build/rss_r.zip"
    rss_r_target_test_dir := "/srv/rss_test"
    rss_r_test_config_file := "conf/test_app_config.ron"
    rss_r_production_directory := "/srv/rss"
    rss_r_production_user := "rss" }

/-- The sample configuration with an empty target host. -/
def configEmptyHost : Config := { configW with target_host := "" }

/-- The sample configuration with an empty production directory. -/
def configNoProd : Config := { configW with rss_r_production_directory := "" }

/-- A remote environment in which everything succeeds. -/
def oracleAllOk : Oracle :=
  { connectOk := true
    handshakeOk := true
    authOk := true
    execExit := fun _ => 0
    uploadOk := fun _ _ => true }

/-- A remote environment in which the archive-content check for the
executable entry exits nonzero and everything else succeeds. -/
def oracleExecCheckFails : Oracle :=
  { oracleAllOk with
    execExit := fun c =>
      match c with
      | Cmd.checkZipContains _ entry => if entry = "rss_r/rss_r" then 1 else 0
      | _ => 0 }

/-- A remote environment in which the `rm -rf` of the test directory exits
with code 7 and everything else succeeds. -/
def oracleRmFails : Oracle :=
  { oracleAllOk with
    execExit := fun c =>
      match c with
      | Cmd.rmTestDir _ => 7
      | _ => 0 }

/-- A remote environment in which agent authentication is rejected. -/
def oracleAuthFails : Oracle := { oracleAllOk with authOk := false }

/-- A local filesystem on which only the sample settings file exists. -/
def fcW : String → Option (List Nat) :=
  fun p => if p = "conf/test_app_config.ron" then some [104, 105] else none

/-- A transfer in which every I/O step succeeds. -/
def torAll : TransferOracle :=
  { scpSendOk := true
    writeOk := true
    sendEofOk := true
    waitEofOk := true
    closeOk := true
    waitCloseOk := true }

/-- An interrupt that becomes pending exactly at the check after the second
read. -/
def pendAtOne : Nat → Bool := fun k => k == 1

/-! ### Helper lemmas -/

theorem DeployM.bindD_okE {α β : Type} (t : List RemoteOp) (a : α) (f : α → DeployM β) :
    DeployM.bindD (t, Except.ok a) f = (t ++ (f a).1, (f a).2) := rfl

theorem DeployM.bindD_errorE {α β : Type} (t : List RemoteOp) (e : DeployError)
    (f : α → DeployM β) : DeployM.bindD (t, Except.error e) f = (t, Except.error e) := rfl

theorem DeployM.bind_eq {α β : Type} (x : DeployM α) (f : α → DeployM β) :
    (x >>= f) = DeployM.bindD x f := rfl

theorem DeployM.pure_eq {α : Type} (a : α) :
    (pure a : DeployM α) = ([], Except.ok a) := rfl

theorem executeLoop_no_interrupt (pending : Nat → Bool) (h : ∀ k, pending k = false)
    (chunks : List String) :
    ∀ (k : Nat), executeLoop pending chunks k = chunks.map ChanAct.read := by
  induction chunks with
  | nil => intro k; rfl
  | cons c rest ih => intro k; simp [executeLoop, h k, ih (k + 1)]

theorem writtenChunks_map_read (l : List String) :
    writtenChunks (l.map ChanAct.read ++ [ChanAct.waitClose]) = l := by
  induction l with
  | nil => rfl
  | cons c rest ih => simpa [writtenChunks] using ih

/-! ### Claim theorems -/

/-- C1: in `deploy_production`, if the remote archive-content check for the
expected executable path (`unzip -l | grep -q rss_r/rss_r`) exits nonzero,
then the static-assets-directory removal command is never issued, and
neither is any later destructive command (the flat unzips, the chowns) or
the service start. -/
theorem deploy_production_aborts_on_failed_exec_check
    (o : Oracle) (config : Config) (name : String)
    (hname : fileName config.rss_r_zip = some name)
    (hfail : o.execExit
      (Cmd.checkZipContains (pathPush REMOTE_TEMP_DIR name) "rss_r/rss_r") ≠ 0) :
    (∀ d, RemoteOp.exec (Cmd.rmStaticDir d) ∉ (deploy_production o config).1) ∧
    (∀ z e d, RemoteOp.exec (Cmd.unzipFlat z e d) ∉ (deploy_production o config).1) ∧
    (∀ z e d, RemoteOp.exec (Cmd.unzipFlatStatic z e d) ∉ (deploy_production o config).1) ∧
    (∀ u t, RemoteOp.exec (Cmd.chown u t) ∉ (deploy_production o config).1) ∧
    (∀ u t, RemoteOp.exec (Cmd.chownR u t) ∉ (deploy_production o config).1) ∧
    RemoteOp.exec Cmd.startService ∉ (deploy_production o config).1 := by
  simp only [deploy_production, connect_and_login, upload_zip_to_tmp_dir,
    tcpConnect, doHandshake, userauthAgent, execCmd, uploadFileW,
    DeployM.bind_eq, DeployM.pure_eq, hname]
  cases hc : o.connectOk
  · simp [hc, DeployM.bindD]
  cases hh : o.handshakeOk
  · simp [hc, hh, DeployM.bindD]
  cases ha : o.authOk
  · simp [hc, hh, ha, DeployM.bindD]
  by_cases hs : o.execExit Cmd.stopService = 0
  case neg => simp [hc, hh, ha, hs, DeployM.bindD]
  cases hu : o.uploadOk config.rss_r_zip (pathPush REMOTE_TEMP_DIR name)
  · simp [hc, hh, ha, hs, hu, DeployM.bindD]
  · simp [hc, hh, ha, hs, hu, hfail, DeployM.bindD]

/-- C1 witness: with the sample configuration and a remote on which the
executable-entry check fails, the static-directory removal command is not in
the issued trace. -/
theorem deploy_production_aborts_on_failed_exec_check_witness :
    fileName configW.rss_r_zip = some "rss_r.zip" ∧
    oracleExecCheckFails.execExit
      (Cmd.checkZipContains (pathPush REMOTE_TEMP_DIR "rss_r.zip") "rss_r/rss_r") ≠ 0 ∧
    RemoteOp.exec (Cmd.rmStaticDir (pathPush configW.rss_r_production_directory "static")) ∉
      (deploy_production oracleExecCheckFails configW).1 :=
  ⟨by decide, by decide,
   (deploy_production_aborts_on_failed_exec_check oracleExecCheckFails configW
     "rss_r.zip" (by decide) (by decide)).1 _⟩

/-- C2: every successful run of `deploy_to_test_dir` issues exactly, in
order: the session establishment (connect, handshake, agent auth), one
upload of the artifact zip to `/tmp` under its own file name, one `rm -rf`
of the configured test directory, one `unzip` of the uploaded archive into
the test directory, one `mkdir -p` of the persistence subdirectory, and one
upload of the settings file into that subdirectory as `app_config.ron` —
and nothing else. -/
theorem deploy_to_test_dir_trace_on_success
    (o : Oracle) (config : Config) (name : String)
    (hname : fileName config.rss_r_zip = some name)
    (hok : (deploy_to_test_dir o config).2 = Except.ok ()) :
    (deploy_to_test_dir o config).1 =
      [RemoteOp.connect config.host_and_port, RemoteOp.handshake,
       RemoteOp.authAgent config.username,
       RemoteOp.upload config.rss_r_zip (pathPush REMOTE_TEMP_DIR name),
       RemoteOp.exec (Cmd.rmTestDir config.rss_r_target_test_dir),
       RemoteOp.exec (Cmd.unzipTest (pathPush REMOTE_TEMP_DIR name)
         config.rss_r_target_test_dir),
       RemoteOp.exec (Cmd.mkdirP (pathPush
         (pathPush config.rss_r_target_test_dir "rss_r") "persistence")),
       RemoteOp.upload config.rss_r_test_config_file
         (pathPush (pathPush (pathPush config.rss_r_target_test_dir "rss_r")
           "persistence") "app_config.ron")] := by
  simp only [deploy_to_test_dir, connect_and_login, upload_zip_to_tmp_dir,
    tcpConnect, doHandshake, userauthAgent, execCmd, uploadFileW,
    DeployM.bind_eq, DeployM.pure_eq, hname] at hok ⊢
  cases hc : o.connectOk
  · simp [hc, DeployM.bindD] at hok
  cases hh : o.handshakeOk
  · simp [hc, hh, DeployM.bindD] at hok
  cases ha : o.authOk
  · simp [hc, hh, ha, DeployM.bindD] at hok
  cases hu : o.uploadOk config.rss_r_zip (pathPush REMOTE_TEMP_DIR name)
  · simp [hc, hh, ha, hu, DeployM.bindD] at hok
  by_cases h1 : o.execExit (Cmd.rmTestDir config.rss_r_target_test_dir) = 0
  case neg => simp [hc, hh, ha, hu, h1, DeployM.bindD] at hok
  by_cases h2 : o.execExit (Cmd.unzipTest (pathPush REMOTE_TEMP_DIR name)
    config.rss_r_target_test_dir) = 0
  case neg => simp [hc, hh, ha, hu, h1, h2, DeployM.bindD] at hok
  by_cases h3 : o.execExit (Cmd.mkdirP (pathPush
    (pathPush config.rss_r_target_test_dir "rss_r") "persistence")) = 0
  case neg => simp [hc, hh, ha, hu, h1, h2, h3, DeployM.bindD] at hok
  simp [hc, hh, ha, hu, h1, h2, h3, DeployM.bindD]

/-- C2 witness: a concrete successful test deploy issues exactly the expected
operations, with every path spelled out. -/
theorem deploy_to_test_dir_trace_on_success_witness :
    fileName configW.rss_r_zip = some "rss_r.zip" ∧
    (deploy_to_test_dir oracleAllOk configW).2 = Except.ok () ∧
    (deploy_to_test_dir oracleAllOk configW).1 =
      [RemoteOp.connect "example.com:22", RemoteOp.handshake,
       RemoteOp.authAgent "deploy",
       RemoteOp.upload "build/rss_r.zip" "/tmp/rss_r.zip",
       RemoteOp.exec (Cmd.rmTestDir "/srv/rss_test"),
       RemoteOp.exec (Cmd.unzipTest "/tmp/rss_r.zip" "/srv/rss_test"),
       RemoteOp.exec (Cmd.mkdirP "/srv/rss_test/rss_r/persistence"),
       RemoteOp.upload "conf/test_app_config.ron"
         "/srv/rss_test/rss_r/persistence/app_config.ron"] :=
  ⟨by decide, rfl, by
    rw [deploy_to_test_dir_trace_on_success oracleAllOk configW "rss_r.zip"
      (by decide) rfl]
    decide⟩

/-- C3: `execute_command` succeeds exactly when the remote exit status is 0;
a nonzero status yields an error carrying the original command text and that
exact exit code; and a workflow stops at such an error: if the `rm -rf` of
the test directory fails, no `unzip` command is ever issued by
`deploy_to_test_dir`. -/
theorem execute_command_exit_status
    (pending : Nat → Bool) (command : String) (ch : Channel)
    (o : Oracle) (config : Config) :
    ((execute_command pending command ch).2 = Except.ok () ↔ ch.exitCode = 0) ∧
    (ch.exitCode ≠ 0 →
      (execute_command pending command ch).2 =
        Except.error { command := command, exitCode := ch.exitCode }) ∧
    (o.execExit (Cmd.rmTestDir config.rss_r_target_test_dir) ≠ 0 →
      ∀ z d, RemoteOp.exec (Cmd.unzipTest z d) ∉ (deploy_to_test_dir o config).1) := by
  refine ⟨?_, ?_, ?_⟩
  · unfold execute_command
    by_cases h : ch.exitCode = 0 <;> simp [h]
  · intro h
    simp [execute_command, h]
  · intro hfail
    simp only [deploy_to_test_dir, connect_and_login, upload_zip_to_tmp_dir,
      tcpConnect, doHandshake, userauthAgent, execCmd, uploadFileW,
      DeployM.bind_eq, DeployM.pure_eq]
    cases hn : fileName config.rss_r_zip
    case none =>
      cases hc : o.connectOk
      · simp [hc, DeployM.bindD]
      cases hh : o.handshakeOk
      · simp [hc, hh, DeployM.bindD]
      cases ha : o.authOk
      · simp [hc, hh, ha, DeployM.bindD]
      · simp [hc, hh, ha, DeployM.bindD]
    case some name =>
      cases hc : o.connectOk
      · simp [hc, DeployM.bindD]
      cases hh : o.handshakeOk
      · simp [hc, hh, DeployM.bindD]
      cases ha : o.authOk
      · simp [hc, hh, ha, DeployM.bindD]
      cases hu : o.uploadOk config.rss_r_zip (pathPush REMOTE_TEMP_DIR name)
      · simp [hc, hh, ha, hu, DeployM.bindD]
      · simp [hc, hh, ha, hu, hfail, DeployM.bindD]

/-- C3 witness: a remote `exit 7` produces an error whose command text is the
original command and whose exit-code field equals 7, and a test deploy whose
`rm -rf` fails never issues its `unzip`. -/
theorem execute_command_exit_status_witness :
    (7 : Nat) ≠ 0 ∧
    oracleRmFails.execExit (Cmd.rmTestDir configW.rss_r_target_test_dir) ≠ 0 ∧
    ((execute_command (fun _ => false) "exit 7" ⟨[], 7⟩).2 = Except.ok () ↔
      (7 : Nat) = 0) ∧
    (execute_command (fun _ => false) "exit 7" ⟨[], 7⟩).2 =
      Except.error { command := "exit 7", exitCode := 7 } ∧
    RemoteOp.exec (Cmd.unzipTest "/tmp/rss_r.zip" "/srv/rss_test") ∉
      (deploy_to_test_dir oracleRmFails configW).1 :=
  ⟨by decide, by decide,
   (execute_command_exit_status (fun _ => false) "exit 7" ⟨[], 7⟩
     oracleRmFails configW).1,
   (execute_command_exit_status (fun _ => false) "exit 7" ⟨[], 7⟩
     oracleRmFails configW).2.1 (by decide),
   (execute_command_exit_status (fun _ => false) "exit 7" ⟨[], 7⟩
     oracleRmFails configW).2.2 (by decide) "/tmp/rss_r.zip" "/srv/rss_test"⟩

/-- C4 counterexample: with an interrupt already pending before the loop
starts, `execute_command` still performs a read (and local write) first —
the flag is checked only after the read of each iteration, not before the
iteration — and after sending end-of-input and closing the channel it still
reads the exit status and fails because that status is 7, so the exit status
is required to be 0 even on the cancellation path. -/
theorem execute_command_interrupt_counterexample :
    (execute_command (fun _ => true) "sleep 1000" ⟨["output"], 7⟩).1 =
      [ChanAct.read "output", ChanAct.sendEof, ChanAct.close, ChanAct.waitClose] ∧
    (execute_command (fun _ => true) "sleep 1000" ⟨["output"], 7⟩).2 =
      Except.error { command := "sleep 1000", exitCode := 7 } :=
  ⟨by decide, rfl⟩

/-- C4 (amended): in streaming execution the interrupt flag is checked once
per poll iteration, after the chunk is read and written; on the first
detection the runner sends end-of-input, closes the channel, and exits the
loop without reading the remaining output; it then waits for the close and
reads the exit status as usual, so the call still fails when that status is
nonzero. Here the flag becomes pending at the check after the second read:
the remaining chunks are never read, and the result is still gated on the
exit status. -/
theorem execute_command_interrupt_behavior
    (pending : Nat → Bool) (command c1 c2 : String) (rest : List String) (e : Nat)
    (h0 : pending 0 = false) (h1 : pending 1 = true) :
    execute_command pending command ⟨c1 :: c2 :: rest, e⟩ =
      ([ChanAct.read c1, ChanAct.read c2, ChanAct.sendEof, ChanAct.close,
        ChanAct.waitClose],
       if e = 0 then Except.ok ()
       else Except.error { command := command, exitCode := e }) := by
  simp [execute_command, executeLoop, h0, h1]

/-- C4 witness: cancellation detected after the second of five chunks stops
the loop with three chunks unread. -/
theorem execute_command_interrupt_behavior_witness :
    pendAtOne 0 = false ∧ pendAtOne 1 = true ∧
    execute_command pendAtOne "sleep 1000" ⟨["a", "b", "c", "d", "e"], 0⟩ =
      ([ChanAct.read "a", ChanAct.read "b", ChanAct.sendEof, ChanAct.close,
        ChanAct.waitClose],
       if (0 : Nat) = 0 then Except.ok ()
       else Except.error { command := "sleep 1000", exitCode := 0 }) :=
  ⟨by decide, by decide,
   execute_command_interrupt_behavior pendAtOne "sleep 1000" "a" "b" ["c", "d", "e"]
     0 (by decide) (by decide)⟩

/-- C5: `upload_file` fails before any activity on the transfer channel when
the local file cannot be opened; when it can, the transfer opens the remote
scp channel with fixed mode `0o644` and a declared length equal to the local
byte count, writes all the bytes, and then performs exactly the four-step
close handshake in order: send end-of-input, wait for its acknowledgment,
close the channel, wait for the close acknowledgment. -/
theorem upload_file_protocol
    (fileContents : String → Option (List Nat)) (tor : TransferOracle)
    (remote_path : String) :
    (∀ file, fileContents file = none →
      upload_file fileContents tor file remote_path =
        ([], Except.error (DeployError.openError file))) ∧
    (∀ file bytes, fileContents file = some bytes →
      tor.scpSendOk = true → tor.writeOk = true → tor.sendEofOk = true →
      tor.waitEofOk = true → tor.closeOk = true → tor.waitCloseOk = true →
      upload_file fileContents tor file remote_path =
        ([TransferStep.scpSend remote_path 0o644 bytes.length,
          TransferStep.writeAll bytes, TransferStep.sendEof,
          TransferStep.waitEof, TransferStep.close, TransferStep.waitClose],
         Except.ok ())) := by
  constructor
  · intro file h
    simp [upload_file, h]
  · intro file bytes h h1 h2 h3 h4 h5 h6
    simp [upload_file, h, h1, h2, h3, h4, h5, h6]

/-- C5 witness: uploading a missing file fails with no transfer step; a
present two-byte file is sent with mode `0o644`, length 2, and the full
handshake. -/
theorem upload_file_protocol_witness :
    fcW "missing.bin" = none ∧
    upload_file fcW torAll "missing.bin" "/tmp/missing.bin" =
      ([], Except.error (DeployError.openError "missing.bin")) ∧
    fcW "conf/test_app_config.ron" = some [104, 105] ∧
    upload_file fcW torAll "conf/test_app_config.ron"
        "/srv/rss_test/rss_r/persistence/app_config.ron" =
      ([TransferStep.scpSend "/srv/rss_test/rss_r/persistence/app_config.ron"
          0o644 2,
        TransferStep.writeAll [104, 105], TransferStep.sendEof,
        TransferStep.waitEof, TransferStep.close, TransferStep.waitClose],
       Except.ok ()) :=
  ⟨by decide,
   (upload_file_protocol fcW torAll "/tmp/missing.bin").1 "missing.bin" (by decide),
   by decide,
   (upload_file_protocol fcW torAll
     "/srv/rss_test/rss_r/persistence/app_config.ron").2
     "conf/test_app_config.ron" [104, 105] (by decide) rfl rfl rfl rfl rfl rfl⟩

/-- C6: `verify_config` rejects a configuration with an empty target host,
an empty username, an empty test-directory string, or a nonexistent artifact
or settings path, and for every such invalid configuration `main` issues no
remote operation at all — in particular it never connects — and exits
nonzero. The claim also mentions a nonexistent key-file path; the program's
`Config` has no key-file field (authentication is agent-only), so that case
has no instances. -/
theorem verify_config_rejects_invalid_before_connect
    (fileExists : String → Bool) (config : Config)
    (hbad : config.target_host.isEmpty = true ∨ config.username.isEmpty = true ∨
      config.rss_r_target_test_dir.isEmpty = true ∨
      fileExists config.rss_r_zip = false ∨
      fileExists config.rss_r_test_config_file = false) :
    verify_config fileExists config = false ∧
    ∀ (args : Args) (contents : Option String)
      (ronFromStr : String → Option Config) (o : Oracle),
      Config.load contents ronFromStr = some config →
      (mainRun args contents ronFromStr fileExists o).remoteOps = [] ∧
      (∀ hp, RemoteOp.connect hp ∉ (mainRun args contents ronFromStr fileExists o).remoteOps) ∧
      (mainRun args contents ronFromStr fileExists o).exitZero = false := by
  have hv : verify_config fileExists config = false := by
    rcases hbad with h | h | h | h | h <;> simp [verify_config, h]
  refine ⟨hv, ?_⟩
  intro args contents ronFromStr o hload
  simp [mainRun, hload, hv]

/-- C6 witness: an empty target host is rejected and the run issues no remote
operation and exits nonzero. -/
theorem verify_config_rejects_invalid_before_connect_witness :
    configEmptyHost.target_host.isEmpty = true ∧
    verify_config (fun _ => true) configEmptyHost = false ∧
    Config.load (some "cfg") (fun _ => some configEmptyHost) = some configEmptyHost ∧
    (mainRun ⟨false⟩ (some "cfg") (fun _ => some configEmptyHost) (fun _ => true)
      oracleAllOk).remoteOps = [] ∧
    (mainRun ⟨false⟩ (some "cfg") (fun _ => some configEmptyHost) (fun _ => true)
      oracleAllOk).exitZero = false :=
  ⟨by decide,
   (verify_config_rejects_invalid_before_connect (fun _ => true) configEmptyHost
     (Or.inl (by decide))).1,
   rfl,
   ((verify_config_rejects_invalid_before_connect (fun _ => true) configEmptyHost
     (Or.inl (by decide))).2 ⟨false⟩ (some "cfg") (fun _ => some configEmptyHost)
     oracleAllOk rfl).1,
   ((verify_config_rejects_invalid_before_connect (fun _ => true) configEmptyHost
     (Or.inl (by decide))).2 ⟨false⟩ (some "cfg") (fun _ => some configEmptyHost)
     oracleAllOk rfl).2.2⟩

/-- C7 counterexample: `execute_command` has no buffered mode. On a
successful `echo hello`-style command the output is written to the local
terminal as it arrives (the written chunks are nonempty), and the value
returned to the caller is the same unit value whatever the remote printed —
the captured stdout is not returned. -/
theorem execute_command_no_buffered_mode :
    writtenChunks (execute_command (fun _ => false) "echo hello"
      ⟨["hello\n"], 0⟩).1 = ["hello\n"] ∧
    (execute_command (fun _ => false) "echo hello" ⟨["hello\n"], 0⟩).2 =
      (execute_command (fun _ => false) "echo hello" ⟨["bye\n"], 0⟩).2 :=
  ⟨by decide, rfl⟩

/-- C7 (amended): `execute_command` supports only a single, streaming output
mode: standard error is merged into standard output, every chunk is written
to the local terminal as it arrives, and on exit status 0 the caller
receives unit — no captured output is returned. -/
theorem execute_command_streaming_only
    (pending : Nat → Bool) (command : String) (chunks : List String)
    (h : ∀ k, pending k = false) :
    execute_command pending command ⟨chunks, 0⟩ =
      (chunks.map ChanAct.read ++ [ChanAct.waitClose], Except.ok ()) ∧
    writtenChunks (execute_command pending command ⟨chunks, 0⟩).1 = chunks := by
  have hl := executeLoop_no_interrupt pending h chunks 0
  constructor
  · simp [execute_command, hl]
  · simp [execute_command, hl, writtenChunks_map_read]

/-- C7 witness: a two-chunk output is streamed in order and the run returns
unit. -/
theorem execute_command_streaming_only_witness :
    (∀ k, (fun _ => false : Nat → Bool) k = false) ∧
    execute_command (fun _ => false) "echo hello" ⟨["hel", "lo\n"], 0⟩ =
      ([ChanAct.read "hel", ChanAct.read "lo\n", ChanAct.waitClose],
       Except.ok ()) ∧
    writtenChunks (execute_command (fun _ => false) "echo hello"
      ⟨["hel", "lo\n"], 0⟩).1 = ["hel", "lo\n"] :=
  ⟨fun _ => rfl,
   (execute_command_streaming_only (fun _ => false) "echo hello"
     ["hel", "lo\n"] (fun _ => rfl)).1,
   (execute_command_streaming_only (fun _ => false) "echo hello"
     ["hel", "lo\n"] (fun _ => rfl)).2⟩

/-- C8 counterexample: session establishment has no key-file strategy. For a
fully populated configuration the session-establishment trace is exactly a
TCP connect, the handshake, and agent authentication with the configured
username; its very first action is the connect, so no key-file existence
check (or any other local check) happens before connecting, and no key-file
read or passphrase prompt exists anywhere in the trace vocabulary the source
gives rise to. -/
theorem connect_and_login_no_keyfile :
    (connect_and_login oracleAllOk configW).1 =
      [RemoteOp.connect "example.com:22", RemoteOp.handshake,
       RemoteOp.authAgent "deploy"] ∧
    (connect_and_login oracleAllOk configW).2 = Except.ok () :=
  ⟨by decide, rfl⟩

/-- C8 (amended): session establishment always uses the agent strategy:
TCP connect to `host:port`, handshake, then `userauth_agent` with the
configured username. Its first operation is always the connect (no
pre-connect check of any local file), any agent-authentication op in the
trace carries the configured username, a fully successful establishment is
exactly connect-handshake-agent-auth, and a rejected agent authentication
fails the run with an auth error. -/
theorem connect_and_login_agent_auth (config : Config) :
    (∀ o : Oracle, (connect_and_login o config).1.head? =
      some (RemoteOp.connect config.host_and_port)) ∧
    (∀ (o : Oracle) (u : String),
      RemoteOp.authAgent u ∈ (connect_and_login o config).1 → u = config.username) ∧
    (∀ o : Oracle, o.connectOk = true → o.handshakeOk = true → o.authOk = true →
      connect_and_login o config =
        ([RemoteOp.connect config.host_and_port, RemoteOp.handshake,
          RemoteOp.authAgent config.username], Except.ok ())) ∧
    (∀ o : Oracle, o.connectOk = true → o.handshakeOk = true → o.authOk = false →
      (connect_and_login o config).2 = Except.error DeployError.authError) := by
  refine ⟨?_, ?_, ?_, ?_⟩
  · intro o
    simp only [connect_and_login, tcpConnect, doHandshake, userauthAgent,
      DeployM.bind_eq]
    cases hc : o.connectOk
    · simp [hc, DeployM.bindD]
    cases hh : o.handshakeOk
    · simp [hc, hh, DeployM.bindD]
    · simp [hc, hh, DeployM.bindD]
  · intro o u
    simp only [connect_and_login, tcpConnect, doHandshake, userauthAgent,
      DeployM.bind_eq]
    cases hc : o.connectOk
    · simp [hc, DeployM.bindD]
    cases hh : o.handshakeOk
    · simp [hc, hh, DeployM.bindD]
    cases ha : o.authOk
    · simp [hc, hh, ha, DeployM.bindD]
    · simp [hc, hh, ha, DeployM.bindD]
  · intro o hc hh ha
    simp [connect_and_login, tcpConnect, doHandshake, userauthAgent,
      DeployM.bind_eq, DeployM.bindD, hc, hh, ha]
  · intro o hc hh ha
    simp [connect_and_login, tcpConnect, doHandshake, userauthAgent,
      DeployM.bind_eq, DeployM.bindD, hc, hh, ha]

/-- C8 witness: with everything up, establishment is exactly
connect-handshake-agent-auth for the configured user; with the agent
rejecting, the run fails with an auth error. -/
theorem connect_and_login_agent_auth_witness :
    oracleAuthFails.connectOk = true ∧ oracleAuthFails.handshakeOk = true ∧
    oracleAuthFails.authOk = false ∧
    connect_and_login oracleAllOk configW =
      ([RemoteOp.connect configW.host_and_port, RemoteOp.handshake,
        RemoteOp.authAgent configW.username], Except.ok ()) ∧
    (connect_and_login oracleAuthFails configW).2 =
      Except.error DeployError.authError :=
  ⟨rfl, rfl, rfl,
   (connect_and_login_agent_auth configW).2.2.1 oracleAllOk rfl rfl rfl,
   (connect_and_login_agent_auth configW).2.2.2 oracleAuthFails rfl rfl rfl⟩

/-- C9: a configuration file that exists but fails to parse is treated
exactly like an absent one — `Config::load` returns `none` in both cases —
and `main` then writes a freshly serialized default configuration over the
file and exits nonzero having issued no remote operation. -/
theorem config_load_parse_failure_like_absent
    (ronFromStr : String → Option Config) (contents : String)
    (hparse : ronFromStr contents = none) :
    Config.load (some contents) ronFromStr = none ∧
    Config.load none ronFromStr = none ∧
    ∀ (args : Args) (fileExists : String → Bool) (o : Oracle),
      mainRun args (some contents) ronFromStr fileExists o =
        { savedConfig := some Config.defaultConfig, remoteOps := [],
          exitZero := false } := by
  refine ⟨by simp [Config.load, hparse], rfl, ?_⟩
  intro args fileExists o
  simp [mainRun, Config.load, hparse]

/-- C9 witness: malformed contents that parse to `none` make the run save
the default configuration and exit nonzero with no remote operation. -/
theorem config_load_parse_failure_like_absent_witness :
    (fun _ : String => (none : Option Config)) "not ron at all" = none ∧
    Config.load (some "not ron at all") (fun _ => none) = none ∧
    Config.load none (fun _ : String => (none : Option Config)) = none ∧
    mainRun ⟨false⟩ (some "not ron at all") (fun _ => none) (fun _ => true)
        oracleAllOk =
      { savedConfig := some Config.defaultConfig, remoteOps := [],
        exitZero := false } :=
  ⟨rfl,
   (config_load_parse_failure_like_absent (fun _ => none) "not ron at all" rfl).1,
   (config_load_parse_failure_like_absent (fun _ => none) "not ron at all" rfl).2.1,
   (config_load_parse_failure_like_absent (fun _ => none) "not ron at all" rfl).2.2
     ⟨false⟩ (fun _ => true) oracleAllOk⟩

/-- C10: configuration validation is mode-independent: an empty production
directory or an empty production user makes `verify_config` fail even when
the invocation requests only the test-deploy workflow, so such a run issues
no remote operation and exits nonzero. -/
theorem verify_config_production_required_in_test_mode
    (fileExists : String → Bool) (config : Config)
    (hbad : config.rss_r_production_directory.isEmpty = true ∨
      config.rss_r_production_user.isEmpty = true) :
    verify_config fileExists config = false ∧
    ∀ (contents : Option String) (ronFromStr : String → Option Config)
      (o : Oracle),
      Config.load contents ronFromStr = some config →
      (mainRun { production := false } contents ronFromStr fileExists o).remoteOps
        = [] ∧
      (mainRun { production := false } contents ronFromStr fileExists o).exitZero
        = false := by
  have hv : verify_config fileExists config = false := by
    rcases hbad with h | h <;> simp [verify_config, h]
  refine ⟨hv, ?_⟩
  intro contents ronFromStr o hload
  simp [mainRun, hload, hv]

/-- C10 witness: a test-mode run with an otherwise valid configuration whose
production directory is empty is rejected before any remote operation. -/
theorem verify_config_production_required_in_test_mode_witness :
    configNoProd.rss_r_production_directory.isEmpty = true ∧
    verify_config (fun _ => true) configNoProd = false ∧
    Config.load (some "cfg") (fun _ => some configNoProd) = some configNoProd ∧
    (mainRun { production := false } (some "cfg") (fun _ => some configNoProd)
      (fun _ => true) oracleAllOk).remoteOps = [] ∧
    (mainRun { production := false } (some "cfg") (fun _ => some configNoProd)
      (fun _ => true) oracleAllOk).exitZero = false :=
  ⟨by decide,
   (verify_config_production_required_in_test_mode (fun _ => true) configNoProd
     (Or.inl (by decide))).1,
   rfl,
   ((verify_config_production_required_in_test_mode (fun _ => true) configNoProd
     (Or.inl (by decide))).2 (some "cfg") (fun _ => some configNoProd)
     oracleAllOk rfl).1,
   ((verify_config_production_required_in_test_mode (fun _ => true) configNoProd
     (Or.inl (by decide))).2 (some "cfg") (fun _ => some configNoProd)
     oracleAllOk rfl).2⟩
